import Mathlib

/-!
Verification of the recipe-chatbot repository.

A shallow embedding of the two source files:
  * `backend/utils.py` — the chatbot conversation pipeline (`get_agent_response`);
  * `homeworks/hw2/hw2_v1/synthetic_query_gen.py` — the synthetic-query
    generation pipeline (prompt lookup, tuple/query generation loops, file
    writers, `main`).

External effects are modelled explicitly:
  * the LLM provider (`litellm.completion` / `call_llm`) becomes an oracle
    function passed as a parameter; a structured call that may fail returns
    `Except String`;
  * the filesystem becomes an explicit `FS` state (directories and files),
    with paths as component lists; Python's `open(path, "w")` becomes
    `FS.openWrite`, which creates-or-truncates the file and fails when the
    parent directory does not exist; `os.makedirs(..., exist_ok=True)`
    becomes `FS.makedirs`;
  * CSV output is modelled at the row level (`List (List String)`), the
    granularity at which the repository's code interacts with the `csv`
    module (`writer.writerow`).
-/

namespace RecipeChatbot

/-- A chat message: a `{role, content}` record (`Dict[str, str]` in the source,
with the two fixed keys used by the code). -/
structure Message where
  role : String
  content : String
deriving DecidableEq, Repr

/-- The fixed persona system prompt `SYSTEM_PROMPT` of `backend/utils.py`. -/
def SYSTEM_PROMPT : String :=
  "You are a creative chef specializing in suggesting easy-to-follow recipes " ++
  "Present only one recipe at a time. Always provide ingredients with precise " ++
  "measurements using standard units but don\x27t make it overcomplicated." ++
  "Be consistent with the measurements, always use the same standard units." ++
  "never suggest recipes with rare to find ingredients. Never use offensive language. " ++
  "Be descriptive in the steps of the recipe, so it is easy to follow." ++
  "Have variety in your recipes, don\x27t just recommend the same thing over and over." ++
  "Politely decline any unsafe, unethical requests from the user." ++
  "Structure all your responses clearly using Markdown for formatting. Use level 2 heading for the" ++
  "recipe name and smaller header for subseguence sections like list of ingredients, instructions, etc." ++
  "Use bullet points for the list of ingredients" ++
  "Provide numbered step by step desciption for instruction section." ++
  "Make an estimate of the time it takes to prepare the meal in minutes." ++
  "If relevent add a section for Notes or tips for alternatives or extra advice."

/-- The system message synthesized by `get_agent_response`:
`{"role": "system", "content": SYSTEM_PROMPT}`. -/
def systemMessage : Message := ⟨"system", SYSTEM_PROMPT⟩

/-- The conversation actually sent to the model (`current_messages` in
`get_agent_response`): if `messages` is empty or its first element's role is
not `"system"`, the fixed system message is prepended; otherwise `messages`
is used as is. -/
def sentMessages (messages : List Message) : List Message :=
  match messages with
  | [] => [systemMessage]
  | m :: rest => if m.role ≠ "system" then systemMessage :: m :: rest else m :: rest

/-- `get_agent_response` of `backend/utils.py`. The provider call
`litellm.completion` is abstracted as the oracle `llm`, returning the raw
reply content for the messages it is sent; the code strips it
(`.strip()`, modelled by `String.trim`) and appends it as an assistant
message to `current_messages`. -/
def get_agent_response (llm : List Message → String) (messages : List Message) :
    List Message :=
  let current_messages := sentMessages messages
  let assistant_reply_content := (llm current_messages).trim
  current_messages ++ [⟨"assistant", assistant_reply_content⟩]

/-- Number of system-role messages in a conversation. -/
def countSystem (messages : List Message) : Nat :=
  (messages.filter (fun m => m.role = "system")).length

/-- One record of the YAML prompt file: `{subject, message}`. -/
structure PromptRecord where
  subject : String
  message : String
deriving DecidableEq, Repr

/-- `get_prompt_by_subject` of `synthetic_query_gen.py`: scan the records in
order and return the `message` of the first whose `subject` matches; raise
`ValueError` (modelled as `Except.error`) when none matches. -/
def get_prompt_by_subject (prompts_data : List PromptRecord) (subject : String) :
    Except String String :=
  match prompts_data with
  | [] => Except.error ("Prompt with subject \x27" ++ subject ++ "\x27 not found")
  | prompt :: rest =>
      if prompt.subject = subject then Except.ok prompt.message
      else get_prompt_by_subject rest subject

/-- Pydantic model `RecipeDimensionTuple`. -/
structure RecipeDimensionTuple where
  cuisine_type : String
  meal_type : String
  degree_of_simplicity : String
deriving DecidableEq, Repr

/-- Pydantic model `RecipeDimensionsList`. -/
structure RecipeDimensionsList where
  tuples : List RecipeDimensionTuple
deriving DecidableEq, Repr

/-- Pydantic model `SyntheticQuery`. -/
structure SyntheticQuery where
  query : String
  tuple_reference : String
deriving DecidableEq, Repr

/-- Pydantic model `SyntheticQueriesList`. -/
structure SyntheticQueriesList where
  queries : List SyntheticQuery
deriving DecidableEq, Repr

/-- The per-tuple loop body of `generate_synthetic_queries`: for each tuple,
one `call_llm` invocation (prompt construction plus the provider call and
JSON/schema parsing, abstracted as the oracle `llm` on the tuple; a
schema-validation or provider failure is `Except.error`, re-raised by
`call_llm`); on success the returned `queries` are appended to the
accumulator `all_queries`, and a failure aborts the whole loop. -/
def genQueriesLoop (llm : RecipeDimensionTuple → Except String SyntheticQueriesList) :
    List RecipeDimensionTuple → List SyntheticQuery →
    Except String (List SyntheticQuery)
  | [], all_queries => Except.ok all_queries
  | tuple_item :: rest, all_queries =>
      match llm tuple_item with
      | Except.ok result => genQueriesLoop llm rest (all_queries ++ result.queries)
      | Except.error e => Except.error e

/-- `generate_synthetic_queries` of `synthetic_query_gen.py`: run the
per-tuple loop over `tuples_data.tuples` starting from an empty accumulator
and wrap the result as a `SyntheticQueriesList`. -/
def generate_synthetic_queries
    (llm : RecipeDimensionTuple → Except String SyntheticQueriesList)
    (tuples_data : RecipeDimensionsList) : Except String SyntheticQueriesList :=
  (genQueriesLoop llm tuples_data.tuples []).map (fun qs => ⟨qs⟩)

/-! ### Filesystem model

A path is its list of `/`-separated components; the state holds the set of
existing directories and the files (path ↦ content). File contents are
either plain text (the tuples artifact) or CSV rows (the queries artifact,
modelled at the row granularity of `csv.writer.writerow`). -/

/-- A filesystem path, as its `/`-separated components. -/
abbrev Path := List String

/-- File contents: plain text, or a CSV file as its list of rows. -/
inductive FileContent where
  | text (s : String)
  | csv (rows : List (List String))
deriving DecidableEq, Repr

/-- Filesystem state: existing directories and files. -/
structure FS where
  dirs : List Path
  files : List (Path × FileContent)
deriving DecidableEq, Repr

/-- Replace the content of `p` if a file exists there, else append a new
file entry. -/
def setFile (files : List (Path × FileContent)) (p : Path) (c : FileContent) :
    List (Path × FileContent) :=
  if files.any (fun pc => pc.1 = p) then
    files.map (fun pc => if pc.1 = p then (p, c) else pc)
  else
    files ++ [(p, c)]

/-- Look up the content of the file at `p`. -/
def FS.findFile (fs : FS) (p : Path) : Option FileContent :=
  (fs.files.find? (fun pc => pc.1 = p)).map (fun pc => pc.2)

/-- Python's `open(path, "w")` followed by writing `c`: succeeds iff the
parent directory of `path` exists (the root `[]` always exists), creating
the file or truncating an existing one; fails with `FileNotFoundError`
otherwise. It never creates directories. -/
def FS.openWrite (fs : FS) (p : Path) (c : FileContent) : Except String FS :=
  if p.dropLast = [] ∨ p.dropLast ∈ fs.dirs then
    Except.ok { fs with files := setFile fs.files p c }
  else
    Except.error "FileNotFoundError"

/-- `os.makedirs(path, exist_ok=True)`: create the directory and every
ancestor of it, succeeding whether or not they already exist. -/
def FS.makedirs (fs : FS) (p : Path) : FS :=
  { fs with dirs := fs.dirs ++ ((List.range p.length).map (fun i => p.take (i + 1))).filter (fun d => d ∉ fs.dirs) }

/-- The body of the generated tuples artifact built by
`save_tuples_to_file`: a module docstring, the literal list of 3-tuples,
and the usage example. -/
def tuplesPythonCode (tuples_data : RecipeDimensionsList) : String :=
  "\x22\x22\x22\nRecipe dimension tuples generated automatically.\nEach tuple contains (cuisine_type, meal_type, degree_of_simplicity)\n\x22\x22\x22\n\nrecipe_dimensions = [\n" ++
  String.join (tuples_data.tuples.map (fun tuple_item =>
    "    (\x22" ++ tuple_item.cuisine_type ++ "\x22, \x22" ++ tuple_item.meal_type ++
    "\x22, \x22" ++ tuple_item.degree_of_simplicity ++ "\x22),\n")) ++
  "]\n\n# Example usage:\nif __name__ == \x22__main__\x22:\n    print(\x22Total number of recipe combinations:\x22, len(recipe_dimensions))\n    print(\x22\\nExample combinations:\x22)\n    for i, (cuisine, meal, difficulty) in enumerate(recipe_dimensions[:5], 1):\n        print(f\x22\x7bi\x7d. Cuisine: \x7bcuisine\x7d, Meal: \x7bmeal\x7d, Difficulty: \x7bdifficulty\x7d\x22)\n"

/-- `save_tuples_to_file`: render the tuples as a Python source artifact and
write it with `open(filename, "w")`. -/
def save_tuples_to_file (fs : FS) (tuples_data : RecipeDimensionsList)
    (filename : Path) : Except String FS :=
  fs.openWrite filename (FileContent.text (tuplesPythonCode tuples_data))

/-- The data rows written by `save_queries_to_csv`'s
`for i, query_item in enumerate(queries_data.queries, 1)` loop: each row is
`[i, query_item.query]` with `i` counting from the given start. -/
def queryRows : Nat → List SyntheticQuery → List (List String)
  | _, [] => []
  | i, query_item :: rest => [toString i, query_item.query] :: queryRows (i + 1) rest

/-- All rows of the CSV file written by `save_queries_to_csv`: the header
`["id", "query"]` followed by one row per query, ids counting from 1. -/
def queriesCsvRows (queries_data : SyntheticQueriesList) : List (List String) :=
  ["id", "query"] :: queryRows 1 queries_data.queries

/-- `save_queries_to_csv`: write the header row and the enumerated query
rows with `open(filename, "w")`. -/
def save_queries_to_csv (fs : FS) (queries_data : SyntheticQueriesList)
    (filename : Path) : Except String FS :=
  fs.openWrite filename (FileContent.csv (queriesCsvRows queries_data))

/-- Path of the tuples artifact written by `main`:
`generated_queries/recipe_dimensions_{timestamp}.py`. -/
def tuplesFilename (timestamp : String) : Path :=
  ["generated_queries", "recipe_dimensions_" ++ timestamp ++ ".py"]

/-- Path of the queries artifact written by `main`:
`generated_queries/synthetic_queries_{timestamp}.csv`. -/
def queriesFilename (timestamp : String) : Path :=
  ["generated_queries", "synthetic_queries_" ++ timestamp ++ ".csv"]

/-- `main` of `synthetic_query_gen.py`. The two Model Gateway oracles stand
for the `call_llm` invocations: `tupleLLM` is the single structured call made
by `generate_recipe_tuples` (its result, or the schema-validation/provider
error it raises), and `queryLLM` the per-tuple call of
`generate_synthetic_queries`. The steps run in source order — prompt
lookups, `os.makedirs` on the output folder, tuple generation, tuples file
write, query generation, CSV write — and the surrounding `try/except` turns
the first failure into the returned error message, leaving the filesystem
as it was at that point. -/
def mainRun (fs : FS) (prompts_data : List PromptRecord)
    (tupleLLM : Except String RecipeDimensionsList)
    (queryLLM : RecipeDimensionTuple → Except String SyntheticQueriesList)
    (timestamp : String) : FS × Option String :=
  match get_prompt_by_subject prompts_data "tuple prompt" with
  | Except.error e => (fs, some e)
  | Except.ok _tuple_prompt =>
    match get_prompt_by_subject prompts_data "synthetic query prompt" with
    | Except.error e => (fs, some e)
    | Except.ok _query_prompt =>
      let fs1 := fs.makedirs ["generated_queries"]
      match tupleLLM with
      | Except.error e => (fs1, some e)
      | Except.ok tuple_data =>
        match save_tuples_to_file fs1 tuple_data (tuplesFilename timestamp) with
        | Except.error e => (fs1, some e)
        | Except.ok fs2 =>
          match generate_synthetic_queries queryLLM tuple_data with
          | Except.error e => (fs2, some e)
          | Except.ok queries_data =>
            match save_queries_to_csv fs2 queries_data (queriesFilename timestamp) with
            | Except.error e => (fs2, some e)
            | Except.ok fs3 => (fs3, none)

/-! ### Helper lemmas -/

theorem sentMessages_of_not_system (messages : List Message)
    (h : messages.head?.map Message.role ≠ some "system") :
    sentMessages messages = systemMessage :: messages := by
  cases messages with
  | nil => rfl
  | cons m rest =>
    have hm : m.role ≠ "system" := fun hc => h (by simp [hc])
    simp [sentMessages, hm]

theorem sentMessages_of_system (messages : List Message)
    (h : messages.head?.map Message.role = some "system") :
    sentMessages messages = messages := by
  cases messages with
  | nil => simp at h
  | cons m rest =>
    have hm : m.role = "system" := by simpa using h
    simp [sentMessages, hm]

/-! ### Chat pipeline claims -/

/-- Claim C1: for every conversation that is empty or whose first message is
not system-role, `get_agent_response` returns the fixed persona system
message, then the input messages in order, then one assistant message: the
first message is the persona, the last has role assistant, and the length is
the input length plus 2. -/
theorem get_agent_response_prepends_persona (llm : List Message → String)
    (messages : List Message)
    (h : messages.head?.map Message.role ≠ some "system") :
    get_agent_response llm messages =
      systemMessage :: messages ++
        [⟨"assistant", (llm (systemMessage :: messages)).trim⟩] ∧
    (get_agent_response llm messages).head? = some systemMessage ∧
    ((get_agent_response llm messages).getLast?).map Message.role = some "assistant" ∧
    (get_agent_response llm messages).length = messages.length + 2 ∧
    ((get_agent_response llm messages).drop 1).dropLast = messages := by
  have hs := sentMessages_of_not_system messages h
  have hmain : get_agent_response llm messages =
      systemMessage :: messages ++
        [⟨"assistant", (llm (systemMessage :: messages)).trim⟩] := by
    simp [get_agent_response, hs]
  refine ⟨hmain, ?_, ?_, ?_, ?_⟩
  · rw [hmain]; rfl
  · rw [hmain]
    have : (systemMessage :: messages ++
        [(⟨"assistant", (llm (systemMessage :: messages)).trim⟩ : Message)]).getLast? =
        some ⟨"assistant", (llm (systemMessage :: messages)).trim⟩ := by
      rw [show systemMessage :: messages ++
          [(⟨"assistant", (llm (systemMessage :: messages)).trim⟩ : Message)] =
          (systemMessage :: messages) ++
          [(⟨"assistant", (llm (systemMessage :: messages)).trim⟩ : Message)] from rfl]
      exact List.getLast?_concat _
    rw [this]
    rfl
  · rw [hmain]; simp
  · rw [hmain]
    simp [List.dropLast_concat]

/-- Claim C2: for every conversation whose first message is system-role,
`get_agent_response` returns exactly the input with one assistant message
appended: nothing is reordered or altered and the length grows by 1 (the
embedding is pure, matching the source's construction of a fresh list with
`+`). -/
theorem get_agent_response_appends_assistant (llm : List Message → String)
    (messages : List Message)
    (h : messages.head?.map Message.role = some "system") :
    get_agent_response llm messages =
      messages ++ [⟨"assistant", (llm messages).trim⟩] ∧
    (get_agent_response llm messages).length = messages.length + 1 ∧
    (get_agent_response llm messages).take messages.length = messages ∧
    ((get_agent_response llm messages).getLast?).map Message.role = some "assistant" := by
  have hs := sentMessages_of_system messages h
  have hmain : get_agent_response llm messages =
      messages ++ [⟨"assistant", (llm messages).trim⟩] := by
    simp [get_agent_response, hs]
  refine ⟨hmain, ?_, ?_, ?_⟩
  · rw [hmain]; simp
  · rw [hmain]; simp [List.take_left]
  · rw [hmain, List.getLast?_concat]
    rfl

/-- A conversation containing a system message that is not in first
position: the code prepends a second system message to it. -/
def c3BadInput : List Message := [⟨"user", "hi"⟩, ⟨"system", "be terse"⟩]

/-- Claim C3 counterexample: the input `[user, system]` contains a
system-role message, yet the conversation sent to the Model Gateway contains
two system-role messages, not exactly one — the code only inspects the first
element. -/
theorem sentMessages_duplicate_system :
    countSystem c3BadInput = 1 ∧ countSystem (sentMessages c3BadInput) = 2 := by
  constructor
  · rfl
  · rfl

/-- Claim C3 (amended): for every conversation whose first message is
system-role and which contains exactly one system-role message, the
conversation sent to the Model Gateway contains exactly one system-role
message; and whenever a system message must be synthesized (empty input or
non-system first message) it is placed only at the front, never inserted
elsewhere. -/
theorem sentMessages_single_system (messages : List Message) :
    (messages.head?.map Message.role = some "system" → countSystem messages = 1 →
      countSystem (sentMessages messages) = 1) ∧
    (messages.head?.map Message.role ≠ some "system" →
      sentMessages messages = systemMessage :: messages) := by
  constructor
  · intro h h1
    rw [sentMessages_of_system messages h]
    exact h1
  · exact sentMessages_of_not_system messages

/-- Witness for C1 at a concrete one-message user conversation. -/
theorem get_agent_response_prepends_persona_witness :
    get_agent_response (fun _ => "ok") [⟨"user", "hi"⟩] =
      systemMessage :: [⟨"user", "hi"⟩] ++ [⟨"assistant", ("ok" : String).trim⟩] ∧
    (get_agent_response (fun _ => "ok") [⟨"user", "hi"⟩]).head? = some systemMessage ∧
    ((get_agent_response (fun _ => "ok") [⟨"user", "hi"⟩]).getLast?).map Message.role =
      some "assistant" ∧
    (get_agent_response (fun _ => "ok") [⟨"user", "hi"⟩]).length =
      ([⟨"user", "hi"⟩] : List Message).length + 2 ∧
    ((get_agent_response (fun _ => "ok") [⟨"user", "hi"⟩]).drop 1).dropLast =
      [⟨"user", "hi"⟩] :=
  get_agent_response_prepends_persona (fun _ => "ok") [⟨"user", "hi"⟩] (by decide)

/-- Witness for C2 at a concrete conversation already starting with a system
message. -/
theorem get_agent_response_appends_assistant_witness :
    get_agent_response (fun _ => "ok") [⟨"system", "s"⟩, ⟨"user", "hi"⟩] =
      [⟨"system", "s"⟩, ⟨"user", "hi"⟩] ++ [⟨"assistant", ("ok" : String).trim⟩] ∧
    (get_agent_response (fun _ => "ok") [⟨"system", "s"⟩, ⟨"user", "hi"⟩]).length =
      ([⟨"system", "s"⟩, ⟨"user", "hi"⟩] : List Message).length + 1 ∧
    (get_agent_response (fun _ => "ok") [⟨"system", "s"⟩, ⟨"user", "hi"⟩]).take
      ([⟨"system", "s"⟩, ⟨"user", "hi"⟩] : List Message).length =
      [⟨"system", "s"⟩, ⟨"user", "hi"⟩] ∧
    ((get_agent_response (fun _ => "ok")
      [⟨"system", "s"⟩, ⟨"user", "hi"⟩]).getLast?).map Message.role = some "assistant" :=
  get_agent_response_appends_assistant (fun _ => "ok")
    [⟨"system", "s"⟩, ⟨"user", "hi"⟩] (by decide)

/-- Witness for the amended C3 at a concrete conversation with a single
leading system message. -/
theorem sentMessages_single_system_witness :
    countSystem (sentMessages [⟨"system", "s"⟩, ⟨"user", "u"⟩]) = 1 :=
  (sentMessages_single_system [⟨"system", "s"⟩, ⟨"user", "u"⟩]).1 (by decide) (by decide)

/-! ### Prompt lookup (C9) -/

theorem get_prompt_by_subject_append (pre : List PromptRecord) (p : PromptRecord)
    (post : List PromptRecord) (subject : String) (hp : p.subject = subject)
    (hpre : ∀ q ∈ pre, q.subject ≠ subject) :
    get_prompt_by_subject (pre ++ p :: post) subject = Except.ok p.message := by
  induction pre with
  | nil => simp [get_prompt_by_subject, hp]
  | cons q pre ih =>
    have hq : q.subject ≠ subject := hpre q (by simp)
    rw [List.cons_append]
    rw [get_prompt_by_subject]
    rw [if_neg hq]
    exact ih (fun r hr => hpre r (by simp [hr]))

theorem get_prompt_by_subject_not_found (prompts_data : List PromptRecord)
    (subject : String) (h : ∀ p ∈ prompts_data, p.subject ≠ subject) :
    get_prompt_by_subject prompts_data subject =
      Except.error ("Prompt with subject \x27" ++ subject ++ "\x27 not found") := by
  induction prompts_data with
  | nil => rfl
  | cons q rest ih =>
    rw [get_prompt_by_subject]
    rw [if_neg (h q (by simp))]
    exact ih (fun r hr => h r (by simp [hr]))

/-- Claim C9: `get_prompt_by_subject` returns the `message` of the first
record (in list order) whose `subject` matches, and fails with the explicit
`ValueError` message when no record matches. -/
theorem get_prompt_by_subject_first_match_or_error
    (prompts_data : List PromptRecord) (subject : String) :
    (∀ pre p post, prompts_data = pre ++ p :: post → p.subject = subject →
      (∀ q ∈ pre, q.subject ≠ subject) →
      get_prompt_by_subject prompts_data subject = Except.ok p.message) ∧
    ((∀ p ∈ prompts_data, p.subject ≠ subject) →
      get_prompt_by_subject prompts_data subject =
        Except.error ("Prompt with subject \x27" ++ subject ++ "\x27 not found")) := by
  constructor
  · intro pre p post heq hp hpre
    rw [heq]
    exact get_prompt_by_subject_append pre p post subject hp hpre
  · exact get_prompt_by_subject_not_found prompts_data subject

/-- A small concrete prompt file with a duplicated subject, to exercise the
first-match rule. -/
def samplePrompts : List PromptRecord :=
  [⟨"tuple prompt", "TP"⟩, ⟨"synthetic query prompt", "QP"⟩,
   ⟨"synthetic query prompt", "QP-shadowed"⟩]

/-- Witness for C9: the first matching record wins and a missing subject
yields the explicit error. -/
theorem get_prompt_by_subject_witness :
    get_prompt_by_subject samplePrompts "synthetic query prompt" = Except.ok "QP" ∧
    get_prompt_by_subject samplePrompts "missing" =
      Except.error ("Prompt with subject \x27missing\x27 not found") :=
  ⟨(get_prompt_by_subject_first_match_or_error samplePrompts "synthetic query prompt").1
      [⟨"tuple prompt", "TP"⟩] ⟨"synthetic query prompt", "QP"⟩
      [⟨"synthetic query prompt", "QP-shadowed"⟩] rfl rfl (by decide),
   (get_prompt_by_subject_first_match_or_error samplePrompts "missing").2 (by decide)⟩

/-! ### Query generation loop (C4, C5) -/

theorem genQueriesLoop_ok (llm : RecipeDimensionTuple → Except String SyntheticQueriesList)
    (ts : List RecipeDimensionTuple) (f : RecipeDimensionTuple → List SyntheticQuery)
    (hok : ∀ t ∈ ts, llm t = Except.ok ⟨f t⟩) (acc : List SyntheticQuery) :
    genQueriesLoop llm ts acc = Except.ok (acc ++ (ts.map f).flatten) := by
  induction ts generalizing acc with
  | nil => simp [genQueriesLoop]
  | cons t ts ih =>
    rw [genQueriesLoop, hok t (by simp)]
    show genQueriesLoop llm ts (acc ++ f t) = _
    rw [ih (fun r hr => hok r (by simp [hr]))]
    simp

theorem join_length_of_const_parts (ts : List RecipeDimensionTuple)
    (f : RecipeDimensionTuple → List SyntheticQuery) (M : Nat)
    (hM : ∀ t ∈ ts, (f t).length = M) :
    (ts.map f).flatten.length = ts.length * M := by
  induction ts with
  | nil => simp
  | cons t ts ih =>
    rw [List.map_cons, List.flatten_cons, List.length_append]
    rw [hM t (by simp), ih (fun r hr => hM r (by simp [hr]))]
    rw [List.length_cons, Nat.succ_mul]
    omega

/-- Claim C4: over a DimensionSet whose per-tuple Model Gateway calls each
succeed with the queries `f t`, `generate_synthetic_queries` returns the
per-tuple results concatenated in tuple order (each block in the order
returned for that tuple); when each call returns exactly `M` queries the
result length is `K * M` for `K` tuples. -/
theorem generate_synthetic_queries_flattens
    (llm : RecipeDimensionTuple → Except String SyntheticQueriesList)
    (tuples_data : RecipeDimensionsList) (M : Nat)
    (f : RecipeDimensionTuple → List SyntheticQuery)
    (hok : ∀ t ∈ tuples_data.tuples, llm t = Except.ok ⟨f t⟩)
    (hM : ∀ t ∈ tuples_data.tuples, (f t).length = M) :
    generate_synthetic_queries llm tuples_data =
      Except.ok ⟨(tuples_data.tuples.map f).flatten⟩ ∧
    (tuples_data.tuples.map f).flatten.length = tuples_data.tuples.length * M := by
  constructor
  · rw [generate_synthetic_queries, genQueriesLoop_ok llm tuples_data.tuples f hok []]
    rfl
  · exact join_length_of_const_parts tuples_data.tuples f M hM

/-- A sample dimension tuple for witnesses. -/
def sampleTupleA : RecipeDimensionTuple := ⟨"italian", "dinner", "easy"⟩

/-- A second sample dimension tuple for witnesses. -/
def sampleTupleB : RecipeDimensionTuple := ⟨"thai", "lunch", "challenging"⟩

/-- A stub per-tuple result: two queries referencing the tuple. -/
def sampleQueriesFor (t : RecipeDimensionTuple) : List SyntheticQuery :=
  [⟨"q1 for " ++ t.cuisine_type, t.cuisine_type⟩,
   ⟨"q2 for " ++ t.cuisine_type, t.cuisine_type⟩]

/-- A stub Model Gateway that always succeeds with `sampleQueriesFor`. -/
def sampleQueryLLM (t : RecipeDimensionTuple) : Except String SyntheticQueriesList :=
  Except.ok ⟨sampleQueriesFor t⟩

/-- Witness for C4 on two tuples with two queries each. -/
theorem generate_synthetic_queries_flattens_witness :
    generate_synthetic_queries sampleQueryLLM ⟨[sampleTupleA, sampleTupleB]⟩ =
      Except.ok ⟨(([sampleTupleA, sampleTupleB]).map sampleQueriesFor).flatten⟩ ∧
    (([sampleTupleA, sampleTupleB]).map sampleQueriesFor).flatten.length =
      ([sampleTupleA, sampleTupleB] : List RecipeDimensionTuple).length * 2 :=
  generate_synthetic_queries_flattens sampleQueryLLM ⟨[sampleTupleA, sampleTupleB]⟩ 2
    sampleQueriesFor (fun _ _ => rfl) (fun _ _ => rfl)

/-! ### CSV rows (C8, C10) -/

theorem queryRows_spec (i : Nat) (qs : List SyntheticQuery) :
    (queryRows i qs).map (fun r => r.headD "") =
      (List.range qs.length).map (fun j => toString (i + j)) ∧
    (queryRows i qs).map (fun r => r.getD 1 "") = qs.map SyntheticQuery.query ∧
    ∀ r ∈ queryRows i qs, r.length = 2 := by
  induction qs generalizing i with
  | nil => simp [queryRows]
  | cons q qs ih =>
    obtain ⟨ih1, ih2, ih3⟩ := ih (i + 1)
    refine ⟨?_, ?_, ?_⟩
    · rw [queryRows, List.map_cons, ih1]
      rw [List.length_cons, List.range_succ_eq_map]
      rw [List.map_cons, List.map_map]
      have harg : i + 0 = i := by omega
      rw [harg]
      congr 1
      apply List.map_congr_left
      intro j _
      simp only [Function.comp]
      congr 1
      omega
    · rw [queryRows, List.map_cons, ih2]
      rfl
    · intro r hr
      rw [queryRows] at hr
      rcases List.mem_cons.mp hr with h | h
      · rw [h]; rfl
      · exact ih3 r h

/-- Claim C8: the rows written by `save_queries_to_csv` are a header row
followed by one row per query whose first field is the 1-based sequential
id and whose second field is the query text, in the QuerySet's order; every
row has exactly two fields, so `tuple_reference` is never present in the
file and cannot round-trip. -/
theorem queriesCsvRows_roundtrip (queries_data : SyntheticQueriesList) :
    (queriesCsvRows queries_data).head? = some ["id", "query"] ∧
    ((queriesCsvRows queries_data).drop 1).map (fun r => r.headD "") =
      (List.range queries_data.queries.length).map (fun j => toString (j + 1)) ∧
    ((queriesCsvRows queries_data).drop 1).map (fun r => r.getD 1 "") =
      queries_data.queries.map SyntheticQuery.query ∧
    ∀ r ∈ queriesCsvRows queries_data, r.length = 2 := by
  obtain ⟨h1, h2, h3⟩ := queryRows_spec 1 queries_data.queries
  refine ⟨rfl, ?_, ?_, ?_⟩
  · rw [queriesCsvRows, List.drop_one, List.tail_cons, h1]
    apply List.map_congr_left
    intro j _
    congr 1
    omega
  · rw [queriesCsvRows, List.drop_one, List.tail_cons, h2]
  · intro r hr
    rw [queriesCsvRows] at hr
    rcases List.mem_cons.mp hr with h | h
    · rw [h]; rfl
    · exact h3 r h

/-- Claim C10: for the empty QuerySet, the writer still emits a valid
artifact whose rows are exactly the header `["id", "query"]` with no data
rows; it succeeds for any target whose parent directory exists (as the one
`main` creates), rather than failing or writing nothing. -/
theorem save_queries_to_csv_empty (fs : FS) (filename : Path)
    (h : filename.dropLast = [] ∨ filename.dropLast ∈ fs.dirs) :
    save_queries_to_csv fs ⟨[]⟩ filename =
      Except.ok { fs with
        files := setFile fs.files filename (FileContent.csv [["id", "query"]]) } := by
  rw [save_queries_to_csv, FS.openWrite, if_pos h]
  rfl

/-- Witness for C10 at a concrete filesystem and target path. -/
theorem save_queries_to_csv_empty_witness :
    save_queries_to_csv ⟨[["generated_queries"]], []⟩ ⟨[]⟩
        ["generated_queries", "synthetic_queries.csv"] =
      Except.ok ⟨[["generated_queries"]],
        setFile [] ["generated_queries", "synthetic_queries.csv"]
          (FileContent.csv [["id", "query"]])⟩ :=
  save_queries_to_csv_empty ⟨[["generated_queries"]], []⟩
    ["generated_queries", "synthetic_queries.csv"] (by decide)

/-! ### Filesystem lemmas -/

theorem any_head_or_tail {α : Type} {pc : α} {rest : List α} {f : α → Bool}
    (h : (pc :: rest).any f = true) (hf : f pc = false) : rest.any f = true := by
  rw [List.any_cons, hf, Bool.false_or] at h
  exact h

theorem find?_map_replace_eq (files : List (Path × FileContent)) (p : Path)
    (c : FileContent) (h : files.any (fun pc => pc.1 = p) = true) :
    (files.map (fun pc => if pc.1 = p then (p, c) else pc)).find?
      (fun pc => pc.1 = p) = some (p, c) := by
  induction files with
  | nil => exact absurd h (by rw [List.any_nil]; exact Bool.false_ne_true)
  | cons pc rest ih =>
    by_cases hp : pc.1 = p
    · rw [List.map_cons, if_pos hp]
      exact List.find?_cons_of_pos _ (decide_eq_true rfl)
    · rw [List.map_cons, if_neg hp]
      rw [List.find?_cons_of_neg _ (by rw [decide_eq_false hp]; exact Bool.false_ne_true)]
      exact ih (any_head_or_tail h (decide_eq_false hp))

theorem find?_append_singleton_eq (files : List (Path × FileContent)) (p : Path)
    (c : FileContent) (h : files.any (fun pc => pc.1 = p) = false) :
    (files ++ [(p, c)]).find? (fun pc => pc.1 = p) = some (p, c) := by
  induction files with
  | nil =>
    rw [List.nil_append]
    exact List.find?_cons_of_pos _ (decide_eq_true rfl)
  | cons pc rest ih =>
    have hp : ¬pc.1 = p := by
      intro hc
      rw [List.any_cons, decide_eq_true hc, Bool.true_or] at h
      exact Bool.noConfusion h
    rw [List.cons_append,
      List.find?_cons_of_neg _ (by rw [decide_eq_false hp]; exact Bool.false_ne_true)]
    apply ih
    rw [List.any_cons, decide_eq_false hp, Bool.false_or] at h
    exact h

theorem find?_setFile_eq (files : List (Path × FileContent)) (p : Path)
    (c : FileContent) :
    (setFile files p c).find? (fun pc => pc.1 = p) = some (p, c) := by
  rw [setFile]
  by_cases h : files.any (fun pc => pc.1 = p)
  · rw [if_pos h]
    exact find?_map_replace_eq files p c h
  · rw [if_neg h]
    have hfalse : files.any (fun pc => pc.1 = p) = false := by
      cases hb : files.any (fun pc => pc.1 = p) with
      | false => rfl
      | true => exact absurd hb h
    exact find?_append_singleton_eq files p c hfalse

theorem find?_setFile_ne (files : List (Path × FileContent)) (p q : Path)
    (c : FileContent) (hq : q ≠ p) :
    (setFile files p c).find? (fun pc => pc.1 = q) =
      files.find? (fun pc => pc.1 = q) := by
  rw [setFile]
  by_cases h : files.any (fun pc => pc.1 = p)
  · rw [if_pos h]
    clear h
    induction files with
    | nil => rfl
    | cons pc rest ih =>
      by_cases hp : pc.1 = p
      · rw [List.map_cons, if_pos hp]
        rw [List.find?_cons_of_neg _
          (by rw [decide_eq_false (Ne.symm hq)]; exact Bool.false_ne_true)]
        rw [List.find?_cons_of_neg _
          (by rw [decide_eq_false (hp ▸ Ne.symm hq)]; exact Bool.false_ne_true)]
        exact ih
      · rw [List.map_cons, if_neg hp]
        by_cases hpq : pc.1 = q
        · rw [List.find?_cons_of_pos (p := fun pc : Path × FileContent => decide (pc.1 = q)) _
            (decide_eq_true hpq)]
          rw [List.find?_cons_of_pos (p := fun pc : Path × FileContent => decide (pc.1 = q)) _
            (decide_eq_true hpq)]
        · rw [List.find?_cons_of_neg _
            (by rw [decide_eq_false hpq]; exact Bool.false_ne_true)]
          rw [List.find?_cons_of_neg _
            (by rw [decide_eq_false hpq]; exact Bool.false_ne_true)]
          exact ih
  · rw [if_neg h]
    rw [List.find?_append]
    have hsingle : ([(p, c)].find? (fun pc => pc.1 = q)) = none := by
      rw [List.find?_cons_of_neg _
        (by rw [decide_eq_false (Ne.symm hq)]; exact Bool.false_ne_true)]
      rfl
    rw [hsingle]
    cases files.find? (fun pc => pc.1 = q) with
    | none => rfl
    | some v => rfl

theorem map_fst_setFile (files : List (Path × FileContent)) (p : Path)
    (c : FileContent) :
    (setFile files p c).map Prod.fst = files.map Prod.fst ∨
    (setFile files p c).map Prod.fst = files.map Prod.fst ++ [p] := by
  rw [setFile]
  by_cases h : files.any (fun pc => pc.1 = p)
  · left
    rw [if_pos h, List.map_map]
    apply List.map_congr_left
    intro pc _
    by_cases hp : pc.1 = p
    · simp [hp, Function.comp]
    · simp [hp, Function.comp]
  · right
    rw [if_neg h]
    simp

theorem not_mem_map_fst_setFile (files : List (Path × FileContent)) (p : Path)
    (c : FileContent) (q : Path) (hq : q ∉ files.map Prod.fst) (hne : q ≠ p) :
    q ∉ (setFile files p c).map Prod.fst := by
  rcases map_fst_setFile files p c with h | h <;> rw [h] <;> simp [hq, hne]

theorem files_makedirs (fs : FS) (p : Path) : (fs.makedirs p).files = fs.files := rfl

theorem tuplesFilename_ne_queriesFilename (timestamp : String) :
    tuplesFilename timestamp ≠ queriesFilename timestamp := by
  rw [tuplesFilename, queriesFilename]
  intro h
  have h2 : "recipe_dimensions_" ++ timestamp ++ ".py" =
      "synthetic_queries_" ++ timestamp ++ ".csv" := by
    injection h with _ h2
    injection h2 with h2 _
  have hlen := congrArg String.length h2
  rw [String.length_append, String.length_append,
    String.length_append, String.length_append] at hlen
  have e1 : ("recipe_dimensions_" : String).length = 18 := rfl
  have e2 : (".py" : String).length = 3 := rfl
  have e3 : ("synthetic_queries_" : String).length = 18 := rfl
  have e4 : (".csv" : String).length = 4 := rfl
  omega

/-! ### Output writers (C7) -/

/-- Claim C7 counterexample: on a filesystem where the parent directory of
the target path does not exist, both writers fail with `FileNotFoundError`
instead of creating the parent directories — `open(path, "w")` does not
create directories; only `main`'s separate `os.makedirs` call does. -/
theorem writers_fail_without_parent_dir :
    save_tuples_to_file ⟨[], []⟩ ⟨[]⟩ ["generated_queries", "recipe_dimensions.py"] =
      Except.error "FileNotFoundError" ∧
    save_queries_to_csv ⟨[], []⟩ ⟨[]⟩ ["generated_queries", "synthetic_queries.csv"] =
      Except.error "FileNotFoundError" := by
  constructor
  · rw [save_tuples_to_file, FS.openWrite, if_neg (by decide)]
  · rw [save_queries_to_csv, FS.openWrite, if_neg (by decide)]

/-- Claim C7 (amended): when the target path's parent directory exists, each
writer creates or overwrites the file at the target path, leaving every
other file and the directory set unchanged; when the parent directory does
not exist, each writer fails with `FileNotFoundError` — neither writer
creates parent directories (that is done separately by `main` via
`os.makedirs`). -/
theorem writers_overwrite_but_no_mkdir (fs : FS) (path : Path)
    (tuples_data : RecipeDimensionsList) (queries_data : SyntheticQueriesList) :
    (path.dropLast = [] ∨ path.dropLast ∈ fs.dirs →
      ∃ fs₁ fs₂,
        save_tuples_to_file fs tuples_data path = Except.ok fs₁ ∧
        fs₁.findFile path = some (FileContent.text (tuplesPythonCode tuples_data)) ∧
        (∀ q, q ≠ path → fs₁.findFile q = fs.findFile q) ∧
        fs₁.dirs = fs.dirs ∧
        save_queries_to_csv fs queries_data path = Except.ok fs₂ ∧
        fs₂.findFile path = some (FileContent.csv (queriesCsvRows queries_data)) ∧
        (∀ q, q ≠ path → fs₂.findFile q = fs.findFile q) ∧
        fs₂.dirs = fs.dirs) ∧
    (¬(path.dropLast = [] ∨ path.dropLast ∈ fs.dirs) →
      save_tuples_to_file fs tuples_data path = Except.error "FileNotFoundError" ∧
      save_queries_to_csv fs queries_data path = Except.error "FileNotFoundError") := by
  constructor
  · intro h
    refine ⟨{ fs with files := setFile fs.files path (FileContent.text (tuplesPythonCode tuples_data)) }, { fs with files := setFile fs.files path (FileContent.csv (queriesCsvRows queries_data)) }, ?_, ?_, ?_, rfl, ?_, ?_, ?_, rfl⟩
    · rw [save_tuples_to_file, FS.openWrite, if_pos h]
    · show ((setFile fs.files path _).find? _).map _ = _
      rw [find?_setFile_eq]
      rfl
    · intro q hq
      show ((setFile fs.files path _).find? _).map _ = fs.findFile q
      rw [find?_setFile_ne fs.files path q _ hq]
      rfl
    · rw [save_queries_to_csv, FS.openWrite, if_pos h]
    · show ((setFile fs.files path _).find? _).map _ = _
      rw [find?_setFile_eq]
      rfl
    · intro q hq
      show ((setFile fs.files path _).find? _).map _ = fs.findFile q
      rw [find?_setFile_ne fs.files path q _ hq]
      rfl
  · intro h
    constructor
    · rw [save_tuples_to_file, FS.openWrite, if_neg h]
    · rw [save_queries_to_csv, FS.openWrite, if_neg h]

/-- Witness for the amended C7: a concrete overwrite of an existing file in
an existing directory, observed through `findFile`, plus the concrete
failure without the parent directory. -/
theorem writers_overwrite_but_no_mkdir_witness :
    (∃ fs₁ fs₂,
      save_tuples_to_file ⟨[["d"]], [(["d", "f.py"], FileContent.text "old")]⟩ ⟨[]⟩
        ["d", "f.py"] = Except.ok fs₁ ∧
      fs₁.findFile ["d", "f.py"] = some (FileContent.text (tuplesPythonCode ⟨[]⟩)) ∧
      (∀ q, q ≠ ["d", "f.py"] →
        fs₁.findFile q =
          FS.findFile ⟨[["d"]], [(["d", "f.py"], FileContent.text "old")]⟩ q) ∧
      fs₁.dirs = [["d"]] ∧
      save_queries_to_csv ⟨[["d"]], [(["d", "f.py"], FileContent.text "old")]⟩ ⟨[]⟩
        ["d", "f.py"] = Except.ok fs₂ ∧
      fs₂.findFile ["d", "f.py"] = some (FileContent.csv (queriesCsvRows ⟨[]⟩)) ∧
      (∀ q, q ≠ ["d", "f.py"] →
        fs₂.findFile q =
          FS.findFile ⟨[["d"]], [(["d", "f.py"], FileContent.text "old")]⟩ q) ∧
      fs₂.dirs = [["d"]]) ∧
    save_tuples_to_file ⟨[], []⟩ ⟨[]⟩ ["d", "f.py"] =
      Except.error "FileNotFoundError" :=
  ⟨(writers_overwrite_but_no_mkdir
      ⟨[["d"]], [(["d", "f.py"], FileContent.text "old")]⟩ ["d", "f.py"] ⟨[]⟩ ⟨[]⟩).1
      (by decide),
   ((writers_overwrite_but_no_mkdir ⟨[], []⟩ ["d", "f.py"] ⟨[]⟩ ⟨[]⟩).2 (by decide)).1⟩

/-! ### Failure propagation in the pipeline (C5, C6) -/

theorem genQueriesLoop_error (llm : RecipeDimensionTuple → Except String SyntheticQueriesList)
    (pre : List RecipeDimensionTuple) (t : RecipeDimensionTuple)
    (post : List RecipeDimensionTuple) (e : String)
    (hpre : ∀ t' ∈ pre, ∃ r, llm t' = Except.ok r) (herr : llm t = Except.error e)
    (acc : List SyntheticQuery) :
    genQueriesLoop llm (pre ++ t :: post) acc = Except.error e := by
  induction pre generalizing acc with
  | nil =>
    rw [List.nil_append, genQueriesLoop, herr]
  | cons p pre ih =>
    obtain ⟨r, hr⟩ := hpre p (by simp)
    rw [List.cons_append, genQueriesLoop, hr]
    show genQueriesLoop llm (pre ++ t :: post) (acc ++ r.queries) = _
    exact ih (fun t' ht' => hpre t' (by simp [ht'])) _

/-- Claim C5: if the Model Gateway call for one tuple fails while all
earlier tuples succeeded, `generate_synthetic_queries` as a whole fails with
that error, and in `main`'s run with such a generator the queries CSV file
is never written (it was not present before and is not present after). -/
theorem generate_synthetic_queries_aborts_on_failure
    (llm : RecipeDimensionTuple → Except String SyntheticQueriesList)
    (tuples_data : RecipeDimensionsList)
    (pre : List RecipeDimensionTuple) (t : RecipeDimensionTuple)
    (post : List RecipeDimensionTuple) (e : String)
    (hsplit : tuples_data.tuples = pre ++ t :: post)
    (hpre : ∀ t' ∈ pre, ∃ r, llm t' = Except.ok r)
    (herr : llm t = Except.error e) :
    generate_synthetic_queries llm tuples_data = Except.error e ∧
    ∀ (fs : FS) (prompts_data : List PromptRecord) (timestamp : String),
      queriesFilename timestamp ∉ fs.files.map Prod.fst →
      queriesFilename timestamp ∉
        ((mainRun fs prompts_data (Except.ok tuples_data) llm timestamp).1).files.map
          Prod.fst := by
  have hgen : generate_synthetic_queries llm tuples_data = Except.error e := by
    rw [generate_synthetic_queries, hsplit,
      genQueriesLoop_error llm pre t post e hpre herr []]
    rfl
  refine ⟨hgen, ?_⟩
  intro fs prompts_data ts hnotin
  cases h1 : get_prompt_by_subject prompts_data "tuple prompt" with
  | error e1 =>
    simp only [mainRun, h1]
    exact hnotin
  | ok tp =>
    cases h2 : get_prompt_by_subject prompts_data "synthetic query prompt" with
    | error e2 =>
      simp only [mainRun, h1, h2]
      exact hnotin
    | ok qp =>
      cases h3 : save_tuples_to_file (fs.makedirs ["generated_queries"]) tuples_data
          (tuplesFilename ts) with
      | error e3 =>
        simp only [mainRun, h1, h2, h3]
        exact hnotin
      | ok fs2 =>
        have hfs2 : fs2.files = setFile fs.files (tuplesFilename ts)
            (FileContent.text (tuplesPythonCode tuples_data)) := by
          rw [save_tuples_to_file, FS.openWrite] at h3
          by_cases hcond : (tuplesFilename ts).dropLast = [] ∨
              (tuplesFilename ts).dropLast ∈ (fs.makedirs ["generated_queries"]).dirs
          · rw [if_pos hcond] at h3
            injection h3 with h3
            rw [← h3]
            rfl
          · rw [if_neg hcond] at h3
            exact Except.noConfusion h3
        simp only [mainRun, h1, h2, h3, hgen]
        rw [hfs2]
        exact not_mem_map_fst_setFile _ _ _ _ hnotin
          (Ne.symm (tuplesFilename_ne_queriesFilename ts))

/-- Claim C6: if the Model Gateway's structured call during dimension
generation fails (schema validation or provider error), the error propagates
to `main`'s handler and no artifact file is written at all: the filesystem's
files are exactly what they were before the run (the write step runs only
after generation succeeds). -/
theorem mainRun_no_artifact_on_dimension_failure (fs : FS)
    (prompts_data : List PromptRecord)
    (queryLLM : RecipeDimensionTuple → Except String SyntheticQueriesList)
    (timestamp : String) (e : String) (tp qp : String)
    (h1 : get_prompt_by_subject prompts_data "tuple prompt" = Except.ok tp)
    (h2 : get_prompt_by_subject prompts_data "synthetic query prompt" = Except.ok qp) :
    (mainRun fs prompts_data (Except.error e) queryLLM timestamp).2 = some e ∧
    ((mainRun fs prompts_data (Except.error e) queryLLM timestamp).1).files =
      fs.files := by
  have hrun : mainRun fs prompts_data (Except.error e) queryLLM timestamp =
      (fs.makedirs ["generated_queries"], some e) := by
    simp only [mainRun, h1, h2]
  rw [hrun]
  exact ⟨rfl, rfl⟩

/-- A stub Model Gateway whose per-tuple call always fails. -/
def failingQueryLLM (_ : RecipeDimensionTuple) : Except String SyntheticQueriesList :=
  Except.error "boom"

/-- Witness for C5: a one-tuple DimensionSet whose call fails aborts the
generation, and `main` writes no queries CSV. -/
theorem generate_synthetic_queries_aborts_on_failure_witness :
    generate_synthetic_queries failingQueryLLM ⟨[sampleTupleA]⟩ = Except.error "boom" ∧
    queriesFilename "20240101_000000" ∉
      ((mainRun ⟨[], []⟩ samplePrompts (Except.ok ⟨[sampleTupleA]⟩) failingQueryLLM
        "20240101_000000").1).files.map Prod.fst := by
  have h := generate_synthetic_queries_aborts_on_failure failingQueryLLM ⟨[sampleTupleA]⟩
    [] sampleTupleA [] "boom" rfl (fun t' ht' => absurd ht' (List.not_mem_nil t')) rfl
  exact ⟨h.1, h.2 ⟨[], []⟩ samplePrompts "20240101_000000" (by simp)⟩

/-- Witness for C6 at a concrete filesystem and prompt file. -/
theorem mainRun_no_artifact_on_dimension_failure_witness :
    (mainRun ⟨[], []⟩ samplePrompts (Except.error "schema validation failed")
      sampleQueryLLM "20240101_000000").2 = some "schema validation failed" ∧
    ((mainRun ⟨[], []⟩ samplePrompts (Except.error "schema validation failed")
      sampleQueryLLM "20240101_000000").1).files = ([] : List (Path × FileContent)) :=
  mainRun_no_artifact_on_dimension_failure ⟨[], []⟩ samplePrompts sampleQueryLLM
    "20240101_000000" "schema validation failed" "TP" "QP" rfl rfl

end RecipeChatbot
